import Mathlib

/-!
Verification of the token-bucket rate limiter and JWT/refresh-token
lifecycle subsystem of the Prompt-Forge backend
(`app/core/rate_limiter.py`, `app/core/security.py`,
`app/services/auth_service.py`, `app/api/auth.py`,
`app/api/dependencies.py`), as a shallow embedding in Lean 4.

Time and token counts are modelled as rationals (`ℚ`); Python floats on
these code paths only ever undergo `+`, `-`, `*`, `/`, `min` and
comparisons on small values, so rational arithmetic is the intended
real-number semantics.  A single call of `check_rate_limit` is modelled
with one timestamp `now` (the two `time.time()` calls inside one Python
invocation are identified).  Cryptographic primitives (HMAC signatures,
SHA-256, bcrypt) are modelled symbolically: a signed token carries the
key it was signed with, a hash is an injective constructor.
-/

namespace PromptForge

/-! ### Rate limiter (`app/core/rate_limiter.py`) -/

/-- One bucket of `EndpointRateLimiter.rate_limits[client_id][endpoint]`:
the dict `{"tokens": float, "last_update": float}`. -/
structure Bucket where
  tokens : ℚ
  last_update : ℚ
deriving DecidableEq, Repr

/-- Python `int(q)` on a float: truncation toward zero. -/
def pyInt (q : ℚ) : ℤ :=
  if 0 ≤ q then ⌊q⌋ else ⌈q⌉

/-- Outcome of a `check_rate_limit` call: normal return, or the
`HTTPException` 429 carrying `retry_after` (seconds). -/
inductive RateLimitResult where
  | allowed : RateLimitResult
  | denied (retry_after : ℤ) : RateLimitResult
deriving DecidableEq, Repr

/-- Python's builtin `min(a, b)`: returns the first argument on ties. -/
def pymin (a b : ℚ) : ℚ := if a ≤ b then a else b

/-- `EndpointRateLimiter._refill_tokens` for one `(client_id, endpoint)`
key.  `none` means the key is not yet present in the nested dict: the
bucket is initialised with `tokens = float(burst)`.  Otherwise
`tokens = min(burst, tokens + elapsed * rate_per_minute / 60)` and
`last_update = now`. -/
def refill_tokens (now rate_per_minute burst : ℚ) :
    Option Bucket → Bucket
  | none => { tokens := burst, last_update := now }
  | some bd =>
      { tokens := pymin burst (bd.tokens + (now - bd.last_update) * (rate_per_minute / 60))
        last_update := now }

/-- `EndpointRateLimiter.check_rate_limit` for one key: refill, then if
`tokens >= 1` consume one token, else raise 429 with
`retry_after = int(60 - (now - last_update))`.  Returns the outcome and
the bucket state after the call. -/
def check_rate_limit (now rate_per_minute burst : ℚ) (b : Option Bucket) :
    RateLimitResult × Bucket :=
  let bd := refill_tokens now rate_per_minute burst b
  if bd.tokens ≥ 1 then
    (.allowed, { bd with tokens := bd.tokens - 1 })
  else
    (.denied (pyInt (60 - (now - bd.last_update))), bd)

/-- A sequence of `check_rate_limit` calls on one key with a fixed burst
capacity: each event is a pair `(now, rate_per_minute)`.  Returns the
trace of (outcome, post-state) pairs. -/
def runTrace (burst : ℚ) : List (ℚ × ℚ) → Option Bucket →
    List (RateLimitResult × Bucket)
  | [], _ => []
  | (now, rate) :: rest, b =>
      let r := check_rate_limit now rate burst b
      r :: runTrace burst rest (some r.2)

/-! ### JWT tokens (`app/core/security.py`)

A JWT is modelled symbolically: a payload (the claims dict restricted
to the keys this code reads: `sub`, `exp`, `type`) plus the signing key
it was encoded with.  `jwt.decode(token, key, ...)` succeeds exactly
when the signature key matches and the token is not expired; any
`JWTError` is collapsed to `none` by the callers, as in the source. -/

/-- `settings.SECRET_KEY` (symbolic value of the configured secret). -/
def SECRET_KEY : String := "promptforge-secret-key"

/-- `settings.ACCESS_TOKEN_EXPIRE_MINUTES` (default 30). -/
def ACCESS_TOKEN_EXPIRE_MINUTES : ℚ := 30

/-- `getattr(settings, 'REFRESH_TOKEN_EXPIRE_DAYS', 7)`. -/
def REFRESH_TOKEN_EXPIRE_DAYS : ℚ := 7

/-- The claims this subsystem reads from a decoded JWT payload:
`sub` (subject, may be absent), `exp` (expiry timestamp, seconds),
`type` (present and equal to `"refresh"` on refresh tokens). -/
structure JwtPayload where
  sub : Option String
  exp : ℚ
  typ : Option String
deriving DecidableEq, Repr

/-- An encoded JWT: its payload and the key it was signed with. -/
structure Jwt where
  payload : JwtPayload
  key : String
deriving DecidableEq, Repr

/-- The `data` dict passed to `create_access_token` /
`create_refresh_token` (the app passes `{"sub": username}`; a `type`
key, if any, is kept by `data.copy()`). -/
structure TokenData where
  sub : Option String
  typ : Option String
deriving DecidableEq, Repr

/-- `create_access_token(data, expires_delta)`: copies `data`, sets
`exp = now + expires_delta` (default `ACCESS_TOKEN_EXPIRE_MINUTES`
minutes) and signs with `SECRET_KEY`.  No `type` claim is added.
`expires_delta` is in seconds. -/
def create_access_token (now : ℚ) (data : TokenData)
    (expires_delta : Option ℚ) : Jwt :=
  let expire := match expires_delta with
    | some d => now + d
    | none => now + ACCESS_TOKEN_EXPIRE_MINUTES * 60
  { payload := { sub := data.sub, exp := expire, typ := data.typ }
    key := SECRET_KEY }

/-- `create_refresh_token(data, expires_delta)`: as above with default
`REFRESH_TOKEN_EXPIRE_DAYS` days, and sets `type = "refresh"`. -/
def create_refresh_token (now : ℚ) (data : TokenData)
    (expires_delta : Option ℚ) : Jwt :=
  let expire := match expires_delta with
    | some d => now + d
    | none => now + REFRESH_TOKEN_EXPIRE_DAYS * 86400
  { payload := { sub := data.sub, exp := expire, typ := some "refresh" }
    key := SECRET_KEY }

/-- `jose.jwt.decode(token, key, algorithms=[...])`: returns the payload
when the signature verifies and the token is unexpired, raises
`JWTError` (modelled as `none`) otherwise. -/
def jwt_decode (now : ℚ) (t : Jwt) (key : String) : Option JwtPayload :=
  if t.key = key ∧ now ≤ t.payload.exp then some t.payload else none

/-- `decode_access_token`: `jwt.decode` with the shared secret, any
error collapsed to `None`.  No `type` check. -/
def decode_access_token (now : ℚ) (t : Jwt) : Option JwtPayload :=
  jwt_decode now t SECRET_KEY

/-- `decode_refresh_token`: `jwt.decode` with the shared secret, then
`None` unless `payload.get("type") == "refresh"`. -/
def decode_refresh_token (now : ℚ) (t : Jwt) : Option JwtPayload :=
  match jwt_decode now t SECRET_KEY with
  | none => none
  | some payload =>
      if payload.typ ≠ some "refresh" then none else some payload

/-- `hash_token`: SHA-256 of the raw token string, modelled as an
injective symbolic constructor (collisions are not modelled). -/
structure TokenHash where
  val : Jwt
deriving DecidableEq, Repr

def hash_token (t : Jwt) : TokenHash := ⟨t⟩

/-- A bcrypt hash, modelled symbolically: `verify_password` succeeds
exactly on the plaintext that was hashed. -/
structure PwHash where
  plain : String
deriving DecidableEq, Repr

def get_password_hash (password : String) : PwHash := ⟨password⟩

def verify_password (plain_password : String) (hashed_password : PwHash) :
    Bool :=
  plain_password == hashed_password.plain

/-! ### Users and the authentication service
(`app/models/user.py` via its uses, `app/services/auth_service.py`) -/

/-- The `users` table row, restricted to the fields this subsystem
reads: `id`, `username`, `hashed_password`, `is_active`. -/
structure User where
  id : ℕ
  username : String
  hashed_password : PwHash
  is_active : Bool
deriving DecidableEq, Repr

/-- A raised `HTTPException(status_code, detail)`. -/
structure HTTPError where
  status_code : ℕ
  detail : String
deriving DecidableEq, Repr

/-- `AuthService.authenticate_user`: look the user up by username; a
missing user and a wrong password both raise
`HTTPException(401, "Incorrect username or password")`. -/
def authenticate_user (users : List User) (username password : String) :
    Except HTTPError User :=
  match users.find? (fun u => u.username == username) with
  | none => .error ⟨401, "Incorrect username or password"⟩
  | some user =>
      if ! verify_password password user.hashed_password then
        .error ⟨401, "Incorrect username or password"⟩
      else
        .ok user

/-- The `credentials_exception` of `get_current_user`. -/
def credentials_exception : HTTPError :=
  ⟨401, "Could not validate credentials"⟩

/-- `get_current_user` (`app/api/dependencies.py`): decode the access
token, read `sub`, look the user up; every failure collapses to the
same 401. -/
def get_current_user (now : ℚ) (token : Option Jwt) (users : List User) :
    Except HTTPError User :=
  match token with
  | none => .error credentials_exception
  | some t =>
      match decode_access_token now t with
      | none => .error credentials_exception
      | some payload =>
          match payload.sub with
          | none => .error credentials_exception
          | some username =>
              match users.find? (fun u => u.username == username) with
              | none => .error credentials_exception
              | some user => .ok user

/-! ### Refresh-token store and the auth endpoints (`app/api/auth.py`,
`app/models/refresh_token.py`)

The `refresh_tokens` table is a list of rows; SQLAlchemy
`query(...).filter(...).first()` is `List.find?`, and setting
`row.revoked = True` followed by `commit()` is an id-targeted map over
the rows. -/

/-- A `refresh_tokens` row (fields this subsystem touches). -/
structure RefreshTokenRecord where
  id : ℕ
  user_id : ℕ
  token : TokenHash
  expires_at : ℚ
  revoked : Bool
deriving DecidableEq, Repr

/-- Setting `revoked = True` on the row with id `i` and committing. -/
def markRevoked (i : ℕ) (db : List RefreshTokenRecord) :
    List RefreshTokenRecord :=
  db.map (fun x => if x.id = i then { x with revoked := true } else x)

/-- The database side effect of `login`: `db.add(RefreshToken(...))`
storing the hashed refresh token with its expiry, `revoked` defaulted
to `False`. -/
def login_store_refresh (new_id user_id : ℕ) (raw : Jwt) (expires_at : ℚ)
    (db : List RefreshTokenRecord) : List RefreshTokenRecord :=
  db ++ [{ id := new_id, user_id := user_id, token := hash_token raw
           expires_at := expires_at, revoked := false }]

/-- The database side effect of `logout`: if a refresh token cookie is
present, find the non-revoked row with that hash and mark it revoked;
absence of token or row is not an error. -/
def logout_revoke (refresh_token : Option Jwt)
    (db : List RefreshTokenRecord) : List RefreshTokenRecord :=
  match refresh_token with
  | none => db
  | some raw =>
      let hashed := hash_token raw
      match db.find? (fun r => r.token == hashed && !r.revoked) with
      | none => db
      | some r => markRevoked r.id db

/-- `refresh_access_token` (`POST /refresh`): returns the new access
token or the raised `HTTPException`, together with the refresh-token
table after the call. -/
def refresh_access_token (now : ℚ) (refresh_token : Option Jwt)
    (db : List RefreshTokenRecord) (users : List User) :
    Except HTTPError Jwt × List RefreshTokenRecord :=
  match refresh_token with
  | none => (.error ⟨401, "Refresh token missing"⟩, db)
  | some raw =>
      match decode_refresh_token now raw with
      | none => (.error ⟨401, "Invalid or expired refresh token"⟩, db)
      | some payload =>
          match payload.sub with
          | none => (.error ⟨401, "Invalid refresh token payload"⟩, db)
          | some username =>
              let hashed := hash_token raw
              match db.find? (fun r => r.token == hashed && !r.revoked) with
              | none => (.error ⟨401, "Refresh token revoked or invalid"⟩, db)
              | some db_token =>
                  if db_token.expires_at < now then
                    (.error ⟨401, "Refresh token expired"⟩,
                     markRevoked db_token.id db)
                  else
                    match users.find? (fun u => u.username == username) with
                    | none => (.error ⟨401, "User not found or inactive"⟩, db)
                    | some user =>
                        if ! user.is_active then
                          (.error ⟨401, "User not found or inactive"⟩, db)
                        else
                          (.ok (create_access_token now
                                  { sub := some user.username, typ := none }
                                  (some (ACCESS_TOKEN_EXPIRE_MINUTES * 60))),
                           db)

/-- `revoke_refresh_token` (`POST /revoke`): find the row matching the
hash AND owned by the current user (no `revoked` filter); mark it
revoked on a hit, 404 on a miss. -/
def revoke_refresh_token (refresh_token : Option Jwt)
    (current_user_id : ℕ) (db : List RefreshTokenRecord) :
    Except HTTPError String × List RefreshTokenRecord :=
  match refresh_token with
  | none => (.error ⟨400, "No refresh token provided"⟩, db)
  | some raw =>
      let hashed := hash_token raw
      match db.find? (fun r => r.token == hashed &&
          r.user_id == current_user_id) with
      | some db_token =>
          (.ok "Refresh token revoked successfully", markRevoked db_token.id db)
      | none => (.error ⟨404, "Refresh token not found"⟩, db)

/-- Looking a row up by primary key. -/
def recordById (i : ℕ) (db : List RefreshTokenRecord) :
    Option RefreshTokenRecord :=
  db.find? (fun r => r.id == i)

/-- The operations of the subsystem that touch the `refresh_tokens`
table, with the inputs that determine their database effect:
`login` stores a fresh row, `refresh` may revoke an expired row,
`logout` revokes the presented row, `revoke` revokes an owned row. -/
inductive AuthOp where
  | loginOp (new_id user_id : ℕ) (raw : Jwt) (expires_at : ℚ) : AuthOp
  | refreshOp (now : ℚ) (tok : Option Jwt) (users : List User) : AuthOp
  | logoutOp (tok : Option Jwt) : AuthOp
  | revokeOp (tok : Option Jwt) (uid : ℕ) : AuthOp

/-- The effect of one operation on the `refresh_tokens` table. -/
def applyOp : AuthOp → List RefreshTokenRecord → List RefreshTokenRecord
  | .loginOp new_id user_id raw expires_at, db =>
      login_store_refresh new_id user_id raw expires_at db
  | .refreshOp now tok users, db => (refresh_access_token now tok db users).2
  | .logoutOp tok, db => logout_revoke tok db
  | .revokeOp tok uid, db => (revoke_refresh_token tok uid db).2

/-! ### Theorems -/

theorem pymin_eq_min (a b : ℚ) : pymin a b = min a b := by
  simp [pymin, min_def]

/-- `markRevoked` preserves every field but `revoked`, so `find?` with a
predicate that ignores `revoked` commutes with it. -/
theorem find?_markRevoked (i : ℕ) (db : List RefreshTokenRecord)
    (p : RefreshTokenRecord → Bool)
    (hp : ∀ x : RefreshTokenRecord,
      p (if x.id = i then { x with revoked := true } else x) = p x) :
    (markRevoked i db).find? p =
      (db.find? p).map
        (fun x => if x.id = i then { x with revoked := true } else x) := by
  unfold markRevoked
  rw [List.find?_map]
  have hfun :
      (p ∘ fun x => if x.id = i then { x with revoked := true } else x) = p :=
    funext hp
  rw [hfun]

/-- Marking the same row revoked twice is the same as once. -/
theorem markRevoked_idem (i : ℕ) (db : List RefreshTokenRecord) :
    markRevoked i (markRevoked i db) = markRevoked i db := by
  unfold markRevoked
  rw [List.map_map]
  refine List.map_congr_left ?_
  intro x _
  by_cases h : x.id = i
  · simp [h]
  · simp [h]

/-- Membership in `markRevoked i db` comes from membership in `db`. -/
theorem mem_markRevoked (i : ℕ) (db : List RefreshTokenRecord)
    (x : RefreshTokenRecord) (hx : x ∈ markRevoked i db) :
    ∃ y ∈ db, x = if y.id = i then { y with revoked := true } else y := by
  unfold markRevoked at hx
  obtain ⟨y, hy, hxy⟩ := List.mem_map.mp hx
  exact ⟨y, hy, hxy.symm⟩

/-- Tokens after one `check_rate_limit` call never exceed the burst
capacity used by that call: the refill saturates at `burst` and the
fresh-key initialisation starts at `burst`. -/
theorem check_rate_limit_tokens_le (now rate burst : ℚ) (b : Option Bucket) :
    ((check_rate_limit now rate burst b).2).tokens ≤ burst := by
  unfold check_rate_limit
  cases b with
  | none =>
      simp only [refill_tokens]
      split
      · simp only
        linarith
      · simp only
        linarith
  | some bd =>
      simp only [refill_tokens]
      have hmin : pymin burst (bd.tokens + (now - bd.last_update) * (rate / 60)) ≤ burst := by
        rw [pymin_eq_min]; exact min_le_left _ _
      split
      · simp only
        linarith
      · simp only
        linarith

/-- C1 counterexample.  A bucket with `tokens = 0`, `last_update = 0`,
checked at `now = 0` with `rate_per_minute = 120`, `burst = 10`, is
denied with `retry_after = 60`; yet a call on the resulting bucket only
half a second later is already allowed, so at most one (whole) second
separates the denial from a token being available.  Hence the denied
`retry_after` is not "the number of seconds until at least one token is
available, computed from the token shortfall": `60 ≠ 1`. -/
theorem retry_after_ignores_shortfall_counterexample :
    (check_rate_limit 0 120 10 (some ⟨0, 0⟩)).1 = .denied 60 ∧
    (check_rate_limit (1/2) 120 10
      (some (check_rate_limit 0 120 10 (some ⟨0, 0⟩)).2)).1 = .allowed ∧
    ¬ ((60 : ℤ) ≤ 1) := by
  refine ⟨?_, ?_, by norm_num⟩ <;>
    norm_num [check_rate_limit, refill_tokens, pymin, pyInt]

/-- C1 amended.  When `check_rate_limit` denies a request, the outcome
carries `retry_after = int(60 - (now - last_update))`; since
`_refill_tokens` has just set `last_update = now`, this is always
exactly 60 seconds, independent of the bucket's token shortfall and of
`rate_per_minute`. -/
theorem denied_retry_after_eq_sixty (now rate burst : ℚ) (b : Option Bucket)
    (ra : ℤ) (h : (check_rate_limit now rate burst b).1 = .denied ra) :
    ra = 60 := by
  have h60 : pyInt (60 - (now - now)) = 60 := by norm_num [pyInt]
  unfold check_rate_limit at h
  cases b <;> simp only [refill_tokens] at h <;> split at h <;>
    simp only [Prod.fst] at h <;>
    first
      | (rw [RateLimitResult.denied.injEq] at h; omega)
      | simp at h

/-- Witness for `denied_retry_after_eq_sixty` at a concrete denial. -/
theorem denied_retry_after_eq_sixty_witness :
    (60 : ℤ) = 60 :=
  denied_retry_after_eq_sixty 0 120 10 (some ⟨0, 0⟩) 60
    (by norm_num [check_rate_limit, refill_tokens, pymin, pyInt])

/-- C2: for a fresh key with `rate_per_minute = 60`, `burst = 10`, ten
calls at time 0 are all allowed, the eleventh at time 0 is denied, and
after one more second of simulated time exactly one additional call is
allowed (a thirteenth call at the same second is denied again). -/
theorem token_bucket_conservation :
    (runTrace 10
        [(0, 60), (0, 60), (0, 60), (0, 60), (0, 60), (0, 60), (0, 60),
         (0, 60), (0, 60), (0, 60), (0, 60), (1, 60), (1, 60)] none).map
        Prod.fst =
      [.allowed, .allowed, .allowed, .allowed, .allowed, .allowed,
       .allowed, .allowed, .allowed, .allowed, .denied 60, .allowed,
       .denied 60] := by
  norm_num [runTrace, check_rate_limit, refill_tokens, pymin, pyInt]

/-- C3: along any sequence of `check_rate_limit` calls on one key (any
call times, any per-call rates, fixed burst capacity, any starting
state including the fresh one), the bucket's token count after every
operation is at most `burst`. -/
theorem tokens_never_exceed_burst (burst : ℚ) (events : List (ℚ × ℚ))
    (b : Option Bucket) :
    ∀ p ∈ runTrace burst events b, p.2.tokens ≤ burst := by
  induction events generalizing b with
  | nil => intro p hp; simp [runTrace] at hp
  | cons e rest ih =>
      intro p hp
      obtain ⟨now, rate⟩ := e
      simp only [runTrace, List.mem_cons] at hp
      rcases hp with hp | hp
      · rw [hp]; exact check_rate_limit_tokens_le now rate burst b
      · exact ih _ p hp

/-- Witness for `tokens_never_exceed_burst` on a concrete trace. -/
theorem tokens_never_exceed_burst_witness :
    (RateLimitResult.allowed, Bucket.mk 9 0).2.tokens ≤ 10 :=
  tokens_never_exceed_burst 10 [(0, 60)] none (.allowed, ⟨9, 0⟩)
    (by norm_num [runTrace, check_rate_limit, refill_tokens, pymin])

/-- C5: a token produced by `create_access_token` (no `"refresh"` type
claim in its data) is rejected by `decode_refresh_token`, although both
share `SECRET_KEY`: the `type` check fails whether or not the signature
and expiry checks pass. -/
theorem access_token_rejected_as_refresh (tIssue tCheck : ℚ)
    (data : TokenData) (delta : Option ℚ)
    (htyp : data.typ ≠ some "refresh") :
    decode_refresh_token tCheck (create_access_token tIssue data delta) =
      none := by
  unfold decode_refresh_token jwt_decode
  by_cases hc : (create_access_token tIssue data delta).key = SECRET_KEY ∧
      tCheck ≤ (create_access_token tIssue data delta).payload.exp
  · rw [if_pos hc]
    have hptyp : (create_access_token tIssue data delta).payload.typ =
        data.typ := by
      simp [create_access_token]
    simp [hptyp, htyp]
  · rw [if_neg hc]

/-- Witness for `access_token_rejected_as_refresh`: a concrete unexpired
access token is rejected by the refresh validation. -/
theorem access_token_rejected_as_refresh_witness :
    decode_refresh_token 10
      (create_access_token 0 { sub := some "alice", typ := none } none) =
      none :=
  access_token_rejected_as_refresh 0 10
    { sub := some "alice", typ := none } none (by simp)

/-- C8: a login attempt with a username that does not exist and one with
an existing username but a wrong password produce the very same
`HTTPException(401, "Incorrect username or password")`; the result does
not reveal whether the username exists. -/
theorem auth_failure_indistinguishable (users : List User)
    (u₁ p₁ u₂ p₂ : String) (user : User)
    (h₁ : users.find? (fun u => u.username == u₁) = none)
    (h₂ : users.find? (fun u => u.username == u₂) = some user)
    (hpw : verify_password p₂ user.hashed_password = false) :
    authenticate_user users u₁ p₁ =
      .error ⟨401, "Incorrect username or password"⟩ ∧
    authenticate_user users u₂ p₂ =
      .error ⟨401, "Incorrect username or password"⟩ ∧
    authenticate_user users u₁ p₁ = authenticate_user users u₂ p₂ := by
  have e₁ : authenticate_user users u₁ p₁ =
      .error ⟨401, "Incorrect username or password"⟩ := by
    unfold authenticate_user
    rw [h₁]
  have e₂ : authenticate_user users u₂ p₂ =
      .error ⟨401, "Incorrect username or password"⟩ := by
    unfold authenticate_user
    rw [h₂]
    simp [hpw]
  exact ⟨e₁, e₂, e₁.trans e₂.symm⟩

/-- Witness for `auth_failure_indistinguishable`: a store with one user
`alice`; the attempts `bob/whatever` and `alice/wrong` fail alike. -/
theorem auth_failure_indistinguishable_witness :
    authenticate_user [⟨1, "alice", get_password_hash "correctpw", true⟩]
        "bob" "whatever" =
      .error ⟨401, "Incorrect username or password"⟩ ∧
    authenticate_user [⟨1, "alice", get_password_hash "correctpw", true⟩]
        "alice" "wrong" =
      .error ⟨401, "Incorrect username or password"⟩ ∧
    authenticate_user [⟨1, "alice", get_password_hash "correctpw", true⟩]
        "bob" "whatever" =
      authenticate_user [⟨1, "alice", get_password_hash "correctpw", true⟩]
        "alice" "wrong" :=
  auth_failure_indistinguishable _ "bob" "whatever" "alice" "wrong"
    ⟨1, "alice", get_password_hash "correctpw", true⟩
    (by simp [List.find?]) (by simp [List.find?])
    (by simp [verify_password, get_password_hash])

/-- C10: `decode_access_token` performs no `type`-claim check, so an
unexpired token minted by `create_refresh_token` is accepted by the
access-token validation, and `get_current_user` authenticates its
subject; while the opposite direction is blocked
(`decode_refresh_token` rejects access tokens). -/
theorem refresh_token_accepted_as_access (tIssue tCheck : ℚ)
    (data : TokenData) (delta : Option ℚ) (uname : String)
    (users : List User) (user : User)
    (hsub : data.sub = some uname)
    (hexp : tCheck ≤ (create_refresh_token tIssue data delta).payload.exp)
    (hfind : users.find? (fun u => u.username == uname) = some user) :
    decode_access_token tCheck (create_refresh_token tIssue data delta) =
      some (create_refresh_token tIssue data delta).payload ∧
    get_current_user tCheck (some (create_refresh_token tIssue data delta))
        users = .ok user := by
  have hda : decode_access_token tCheck
      (create_refresh_token tIssue data delta) =
      some (create_refresh_token tIssue data delta).payload := by
    unfold decode_access_token jwt_decode
    rw [if_pos]
    exact ⟨rfl, hexp⟩
  have hps : (create_refresh_token tIssue data delta).payload.sub =
      some uname := by
    simp [create_refresh_token, hsub]
  refine ⟨hda, ?_⟩
  simp only [get_current_user, hda, hps, hfind]

/-- Witness for `refresh_token_accepted_as_access` at a concrete
refresh token and user store. -/
theorem refresh_token_accepted_as_access_witness :
    decode_access_token 10
        (create_refresh_token 0 { sub := some "alice", typ := none }
          (some 100)) =
      some (create_refresh_token 0 { sub := some "alice", typ := none }
          (some 100)).payload ∧
    get_current_user 10
        (some (create_refresh_token 0 { sub := some "alice", typ := none }
          (some 100)))
        [⟨1, "alice", get_password_hash "correctpw", true⟩] =
      .ok ⟨1, "alice", get_password_hash "correctpw", true⟩ :=
  refresh_token_accepted_as_access 0 10
    { sub := some "alice", typ := none } (some 100) "alice"
    [⟨1, "alice", get_password_hash "correctpw", true⟩]
    ⟨1, "alice", get_password_hash "correctpw", true⟩
    rfl (by norm_num [create_refresh_token]) (by simp [List.find?])

/-- C4: revoking the same refresh token twice (by its owner) succeeds
both times and leaves the same end state, the matched row having
`revoked = true`. -/
theorem revoke_idempotent (raw : Jwt) (uid : ℕ)
    (db : List RefreshTokenRecord) (r : RefreshTokenRecord)
    (hfind : db.find?
        (fun x => x.token == hash_token raw && x.user_id == uid) =
      some r) :
    revoke_refresh_token (some raw) uid db =
      (.ok "Refresh token revoked successfully", markRevoked r.id db) ∧
    (∀ x ∈ markRevoked r.id db, x.id = r.id → x.revoked = true) ∧
    revoke_refresh_token (some raw) uid (markRevoked r.id db) =
      (.ok "Refresh token revoked successfully", markRevoked r.id db) := by
  have hp : ∀ x : RefreshTokenRecord,
      (fun y : RefreshTokenRecord =>
          y.token == hash_token raw && y.user_id == uid)
        (if x.id = r.id then { x with revoked := true } else x) =
      (x.token == hash_token raw && x.user_id == uid) := by
    intro x
    by_cases h : x.id = r.id <;> simp [h]
  have hfind2 : (markRevoked r.id db).find?
      (fun x => x.token == hash_token raw && x.user_id == uid) =
      some { r with revoked := true } := by
    rw [find?_markRevoked r.id db _ hp, hfind]
    simp
  refine ⟨?_, ?_, ?_⟩
  · unfold revoke_refresh_token
    simp only [hfind]
  · intro x hx hid
    obtain ⟨y, hy, hxy⟩ := mem_markRevoked r.id db x hx
    by_cases h : y.id = r.id
    · rw [hxy]
      simp [h]
    · rw [hxy] at hid
      simp [h] at hid
  · unfold revoke_refresh_token
    simp only [hfind2]
    rw [markRevoked_idem]

/-- Witness for `revoke_idempotent` on a one-row store. -/
theorem revoke_idempotent_witness :
    revoke_refresh_token
        (some ⟨⟨some "alice", 100, some "refresh"⟩, SECRET_KEY⟩) 1
        [⟨1, 1, hash_token ⟨⟨some "alice", 100, some "refresh"⟩, SECRET_KEY⟩,
          100, false⟩] =
      (.ok "Refresh token revoked successfully",
       markRevoked 1
        [⟨1, 1, hash_token ⟨⟨some "alice", 100, some "refresh"⟩, SECRET_KEY⟩,
          100, false⟩]) ∧
    (∀ x ∈ markRevoked 1
        [⟨1, 1, hash_token ⟨⟨some "alice", 100, some "refresh"⟩, SECRET_KEY⟩,
          100, false⟩], x.id = 1 → x.revoked = true) ∧
    revoke_refresh_token
        (some ⟨⟨some "alice", 100, some "refresh"⟩, SECRET_KEY⟩) 1
        (markRevoked 1
          [⟨1, 1, hash_token ⟨⟨some "alice", 100, some "refresh"⟩, SECRET_KEY⟩,
            100, false⟩]) =
      (.ok "Refresh token revoked successfully",
       markRevoked 1
        [⟨1, 1, hash_token ⟨⟨some "alice", 100, some "refresh"⟩, SECRET_KEY⟩,
          100, false⟩]) :=
  revoke_idempotent ⟨⟨some "alice", 100, some "refresh"⟩, SECRET_KEY⟩ 1
    [⟨1, 1, hash_token ⟨⟨some "alice", 100, some "refresh"⟩, SECRET_KEY⟩,
      100, false⟩]
    ⟨1, 1, hash_token ⟨⟨some "alice", 100, some "refresh"⟩, SECRET_KEY⟩,
      100, false⟩
    (by simp [List.find?, hash_token])

/-- C9: user B revoking a refresh token whose stored row belongs to
user A gets a 404 and the store is unchanged (in particular A's row
keeps `revoked = false`): the ownership filter is part of the lookup,
before any mutation. -/
theorem cross_user_revoke_rejected (raw : Jwt) (a b : ℕ)
    (db : List RefreshTokenRecord)
    (hown : ∀ x ∈ db, x.token = hash_token raw → x.user_id = a)
    (hne : a ≠ b) :
    revoke_refresh_token (some raw) b db =
      (.error ⟨404, "Refresh token not found"⟩, db) := by
  have hfind : db.find?
      (fun x => x.token == hash_token raw && x.user_id == b) = none := by
    rw [List.find?_eq_none]
    intro x hx
    by_cases ht : x.token = hash_token raw
    · have hua := hown x hx ht
      simp [ht, hua, hne]
    · simp [ht]
  unfold revoke_refresh_token
  simp only [hfind]

/-- Witness for `cross_user_revoke_rejected`: user 2 cannot revoke the
row owned by user 1. -/
theorem cross_user_revoke_rejected_witness :
    revoke_refresh_token
        (some ⟨⟨some "alice", 100, some "refresh"⟩, SECRET_KEY⟩) 2
        [⟨1, 1, hash_token ⟨⟨some "alice", 100, some "refresh"⟩, SECRET_KEY⟩,
          100, false⟩] =
      (.error ⟨404, "Refresh token not found"⟩,
       [⟨1, 1, hash_token ⟨⟨some "alice", 100, some "refresh"⟩, SECRET_KEY⟩,
         100, false⟩]) :=
  cross_user_revoke_rejected
    ⟨⟨some "alice", 100, some "refresh"⟩, SECRET_KEY⟩ 1 2
    [⟨1, 1, hash_token ⟨⟨some "alice", 100, some "refresh"⟩, SECRET_KEY⟩,
      100, false⟩]
    (by
      intro x hx ht
      rw [List.mem_singleton] at hx
      rw [hx])
    (by norm_num)

/-- Every operation leaves the `refresh_tokens` table unchanged, marks
one row revoked, or appends a fresh row: no code path writes
`revoked = False` to an existing row or deletes one. -/
theorem applyOp_shape (op : AuthOp) (db : List RefreshTokenRecord) :
    applyOp op db = db ∨ (∃ j, applyOp op db = markRevoked j db) ∨
      (∃ rec, applyOp op db = db ++ [rec]) := by
  cases op with
  | loginOp new_id user_id raw expires_at =>
      right; right
      exact ⟨_, rfl⟩
  | logoutOp tok =>
      cases tok with
      | none => left; rfl
      | some raw =>
          rcases hf : db.find? (fun r => r.token == hash_token raw &&
              !r.revoked) with _ | r
          · left
            simp [applyOp, logout_revoke, hf]
          · right; left
            exact ⟨r.id, by simp [applyOp, logout_revoke, hf]⟩
  | revokeOp tok uid =>
      cases tok with
      | none => left; rfl
      | some raw =>
          rcases hf : db.find? (fun x => x.token == hash_token raw &&
              x.user_id == uid) with _ | r
          · left
            simp [applyOp, revoke_refresh_token, hf]
          · right; left
            exact ⟨r.id, by simp [applyOp, revoke_refresh_token, hf]⟩
  | refreshOp now tok users =>
      cases tok with
      | none => left; rfl
      | some raw =>
          cases hdec : decode_refresh_token now raw with
          | none =>
              left
              simp [applyOp, refresh_access_token, hdec]
          | some p =>
              cases hsub : p.sub with
              | none =>
                  left
                  simp [applyOp, refresh_access_token, hdec, hsub]
              | some uname =>
                  rcases hf : db.find? (fun x => x.token == hash_token raw &&
                      !x.revoked) with _ | r
                  · left
                    simp [applyOp, refresh_access_token, hdec, hsub, hf]
                  · by_cases hexp : r.expires_at < now
                    · right; left
                      exact ⟨r.id, by
                        simp [applyOp, refresh_access_token, hdec, hsub, hf,
                          hexp]⟩
                    · rcases hu : users.find? (fun u => u.username == uname)
                          with _ | user
                      · left
                        simp [applyOp, refresh_access_token, hdec, hsub, hf,
                          hexp, hu]
                      · by_cases hact : user.is_active
                        · left
                          simp [applyOp, refresh_access_token, hdec, hsub,
                            hf, hexp, hu, hact]
                        · left
                          simp [applyOp, refresh_access_token, hdec, hsub,
                            hf, hexp, hu, hact]

/-- A revoked row stays revoked under `markRevoked`. -/
theorem recordById_markRevoked_mono (i j : ℕ)
    (db : List RefreshTokenRecord) (r r' : RefreshTokenRecord)
    (h1 : recordById i db = some r) (hrev : r.revoked = true)
    (h2 : recordById i (markRevoked j db) = some r') :
    r'.revoked = true := by
  unfold recordById at h1 h2
  rw [find?_markRevoked j db _ (by
    intro x
    by_cases h : x.id = j <;> simp [h])] at h2
  rw [h1] at h2
  have h3 : (if r.id = j then { r with revoked := true } else r) = r' := by
    injection h2
  rw [← h3]
  by_cases h : r.id = j
  · simp [h]
  · simp [h, hrev]

/-- C6: (1) once a `refresh_tokens` row has `revoked = true`, no
operation of the subsystem (login, refresh, logout, revoke) ever resets
it to `false`; (2) when every stored row matching a raw refresh token's
hash is revoked, `refresh` with that raw token fails, even when the
token still passes `decode_refresh_token` (signature, expiry and type
checks). -/
theorem revoked_is_terminal :
    (∀ (op : AuthOp) (db : List RefreshTokenRecord) (i : ℕ)
        (r r' : RefreshTokenRecord),
        recordById i db = some r → r.revoked = true →
        recordById i (applyOp op db) = some r' → r'.revoked = true) ∧
    (∀ (now : ℚ) (raw : Jwt) (db : List RefreshTokenRecord)
        (users : List User),
        (∀ x ∈ db, x.token = hash_token raw → x.revoked = true) →
        (decode_refresh_token now raw).isSome = true →
        ∃ e, (refresh_access_token now (some raw) db users).1 =
          .error e) := by
  constructor
  · intro op db i r r' h1 hrev h2
    rcases applyOp_shape op db with hs | ⟨j, hs⟩ | ⟨rec, hs⟩
    · rw [hs, h1] at h2
      injection h2 with h2
      rw [← h2]
      exact hrev
    · rw [hs] at h2
      exact recordById_markRevoked_mono i j db r r' h1 hrev h2
    · rw [hs] at h2
      unfold recordById at h1 h2
      rw [List.find?_append, h1] at h2
      injection h2 with h2
      rw [← h2]
      exact hrev
  · intro now raw db users hrev hdec
    rw [Option.isSome_iff_exists] at hdec
    obtain ⟨p, hp⟩ := hdec
    have hfind : db.find?
        (fun x => x.token == hash_token raw && !x.revoked) = none := by
      rw [List.find?_eq_none]
      intro x hx
      by_cases ht : x.token = hash_token raw
      · simp [ht, hrev x hx ht]
      · simp [ht]
    cases hsub : p.sub with
    | none =>
        exact ⟨⟨401, "Invalid refresh token payload"⟩,
          by simp [refresh_access_token, hp, hsub]⟩
    | some u =>
        exact ⟨⟨401, "Refresh token revoked or invalid"⟩,
          by simp [refresh_access_token, hp, hsub, hfind]⟩

/-- Witness for `revoked_is_terminal`: a one-row store whose row is
revoked, the op being a (failing) revoke with no token; and a refresh
with a well-formed raw token whose row is revoked. -/
theorem revoked_is_terminal_witness :
    ((⟨1, 1, hash_token ⟨⟨some "alice", 100, some "refresh"⟩, SECRET_KEY⟩,
        200, true⟩ : RefreshTokenRecord)).revoked = true ∧
    ∃ e, (refresh_access_token 50
        (some ⟨⟨some "alice", 100, some "refresh"⟩, SECRET_KEY⟩)
        [⟨1, 1, hash_token ⟨⟨some "alice", 100, some "refresh"⟩, SECRET_KEY⟩,
          200, true⟩] []).1 = .error e := by
  constructor
  · exact revoked_is_terminal.1 (.revokeOp none 0)
      [⟨1, 1, hash_token ⟨⟨some "alice", 100, some "refresh"⟩, SECRET_KEY⟩,
        200, true⟩] 1
      ⟨1, 1, hash_token ⟨⟨some "alice", 100, some "refresh"⟩, SECRET_KEY⟩,
        200, true⟩
      ⟨1, 1, hash_token ⟨⟨some "alice", 100, some "refresh"⟩, SECRET_KEY⟩,
        200, true⟩
      (by simp [recordById, List.find?]) rfl
      (by simp [recordById, applyOp, revoke_refresh_token, List.find?])
  · exact revoked_is_terminal.2 50
      ⟨⟨some "alice", 100, some "refresh"⟩, SECRET_KEY⟩
      [⟨1, 1, hash_token ⟨⟨some "alice", 100, some "refresh"⟩, SECRET_KEY⟩,
        200, true⟩] []
      (by
        intro x hx ht
        rw [List.mem_singleton] at hx
        rw [hx])
      (by norm_num [decode_refresh_token, jwt_decode])

/-- C7: presenting a refresh token whose stored row has expired makes
`refresh` fail with 401 "Refresh token expired" and, as a side effect,
mark the row revoked; a second `refresh` with the same token then fails
as 401 "Refresh token revoked or invalid" and leaves the store
unchanged — the expired state is terminal and idempotent. -/
theorem expiry_self_heals (now : ℚ) (raw : Jwt) (p : JwtPayload)
    (uname : String) (db : List RefreshTokenRecord) (users : List User)
    (r : RefreshTokenRecord)
    (hdec : decode_refresh_token now raw = some p)
    (hsub : p.sub = some uname)
    (hfind : db.find? (fun x => x.token == hash_token raw && !x.revoked) =
      some r)
    (huniq : ∀ x ∈ db, x.token = hash_token raw → x.id = r.id)
    (hexp : r.expires_at < now) :
    (refresh_access_token now (some raw) db users).1 =
      .error ⟨401, "Refresh token expired"⟩ ∧
    (refresh_access_token now (some raw) db users).2 =
      markRevoked r.id db ∧
    (∀ x ∈ markRevoked r.id db, x.token = hash_token raw →
      x.revoked = true) ∧
    refresh_access_token now (some raw) (markRevoked r.id db) users =
      (.error ⟨401, "Refresh token revoked or invalid"⟩,
       markRevoked r.id db) := by
  have hall : ∀ x ∈ markRevoked r.id db, x.token = hash_token raw →
      x.revoked = true := by
    intro x hx ht
    obtain ⟨y, hy, hxy⟩ := mem_markRevoked r.id db x hx
    by_cases h : y.id = r.id
    · rw [hxy]
      simp [h]
    · rw [hxy] at ht
      simp [h] at ht
      exact absurd (huniq y hy ht) h
  have hfind2 : (markRevoked r.id db).find?
      (fun x => x.token == hash_token raw && !x.revoked) = none := by
    rw [List.find?_eq_none]
    intro x hx
    by_cases ht : x.token = hash_token raw
    · simp [ht, hall x hx ht]
    · simp [ht]
  refine ⟨?_, ?_, hall, ?_⟩
  · simp [refresh_access_token, hdec, hsub, hfind, hexp]
  · simp [refresh_access_token, hdec, hsub, hfind, hexp]
  · simp [refresh_access_token, hdec, hsub, hfind2]

/-- Witness for `expiry_self_heals`: a store whose single row for the
token expired at time 10, refreshed at time 50. -/
theorem expiry_self_heals_witness :
    (refresh_access_token 50
        (some ⟨⟨some "alice", 100, some "refresh"⟩, SECRET_KEY⟩)
        [⟨1, 1, hash_token ⟨⟨some "alice", 100, some "refresh"⟩, SECRET_KEY⟩,
          10, false⟩] []).1 =
      .error ⟨401, "Refresh token expired"⟩ ∧
    (refresh_access_token 50
        (some ⟨⟨some "alice", 100, some "refresh"⟩, SECRET_KEY⟩)
        [⟨1, 1, hash_token ⟨⟨some "alice", 100, some "refresh"⟩, SECRET_KEY⟩,
          10, false⟩] []).2 =
      markRevoked 1
        [⟨1, 1, hash_token ⟨⟨some "alice", 100, some "refresh"⟩, SECRET_KEY⟩,
          10, false⟩] ∧
    (∀ x ∈ markRevoked 1
        [⟨1, 1, hash_token ⟨⟨some "alice", 100, some "refresh"⟩, SECRET_KEY⟩,
          10, false⟩],
      x.token = hash_token ⟨⟨some "alice", 100, some "refresh"⟩, SECRET_KEY⟩ →
      x.revoked = true) ∧
    refresh_access_token 50
        (some ⟨⟨some "alice", 100, some "refresh"⟩, SECRET_KEY⟩)
        (markRevoked 1
          [⟨1, 1, hash_token ⟨⟨some "alice", 100, some "refresh"⟩, SECRET_KEY⟩,
            10, false⟩]) [] =
      (.error ⟨401, "Refresh token revoked or invalid"⟩,
       markRevoked 1
        [⟨1, 1, hash_token ⟨⟨some "alice", 100, some "refresh"⟩, SECRET_KEY⟩,
          10, false⟩]) :=
  expiry_self_heals 50 ⟨⟨some "alice", 100, some "refresh"⟩, SECRET_KEY⟩
    ⟨some "alice", 100, some "refresh"⟩ "alice"
    [⟨1, 1, hash_token ⟨⟨some "alice", 100, some "refresh"⟩, SECRET_KEY⟩,
      10, false⟩] []
    ⟨1, 1, hash_token ⟨⟨some "alice", 100, some "refresh"⟩, SECRET_KEY⟩,
      10, false⟩
    (by norm_num [decode_refresh_token, jwt_decode]) rfl
    (by simp [List.find?, hash_token])
    (by
      intro x hx ht
      rw [List.mem_singleton] at hx
      rw [hx])
    (by norm_num)

end PromptForge
